import Mathlib

/-!
Shallow embedding of the conversation/step-log backend in
`src/server/app/main.py` (FastAPI + MongoDB + jsonpatch), together with
proofs of the testable properties of its specification.

Conventions of the embedding:
* JSON-like documents are the inductive type `Json`.
* The MongoDB collections are association lists from id strings to records;
  `find_one` is first-match lookup, `update_one` is first-match modification
  (Mongo `_id` is a unique index, so at most one entry matches in practice).
* `datetime.utcnow()` is an explicit `now : Nat` argument threaded into every
  handler; a handler that stamps several fields at one instant receives one
  `now`.
* A FastAPI handler either returns a value, raises `HTTPException(status,
  detail)`, or lets some other exception escape (which FastAPI turns into a
  bare 500 response). These three outcomes are the constructors of `Resp`.
* `bson.ObjectId(s)` succeeds exactly on 24-character hexadecimal strings and
  raises `InvalidId` otherwise; `isValidOId` models that documented contract.
-/

namespace V4

/-- JSON-like document values: the tagged union of null, booleans, numbers,
strings, ordered sequences and string-keyed mappings. -/
inductive Json where
  | null : Json
  | bool (b : Bool) : Json
  | num (n : Int) : Json
  | str (s : String) : Json
  | arr (elems : List Json) : Json
  | obj (fields : List (String × Json)) : Json

/-- The kind of a patch operation: the server only accepts add, replace and
remove (`OpModel.op` is `Literal['add','replace','remove']`). -/
inductive OpKind where
  | add : OpKind
  | replace : OpKind
  | remove : OpKind
deriving DecidableEq

/-- One JSON Patch operation, as in `OpModel`: an op kind, a JSON-Pointer-like
path, and an optional value (absent for remove). -/
structure Op where
  op : OpKind
  path : String
  value : Option Json

/-- Unescape a JSON Pointer reference token: `~1` becomes `/` and `~0`
becomes `~` (left-to-right, non-overlapping). -/
def unescapeChars : List Char → List Char
  | [] => []
  | '~' :: '1' :: rest => '/' :: unescapeChars rest
  | '~' :: '0' :: rest => '~' :: unescapeChars rest
  | c :: rest => c :: unescapeChars rest

/-- Split a character sequence at every `/` (the separators between reference
tokens); always returns at least one token. -/
def splitSlash : List Char → List (List Char)
  | [] => [[]]
  | '/' :: rest => [] :: splitSlash rest
  | c :: rest =>
      match splitSlash rest with
      | t :: ts => (c :: t) :: ts
      | [] => [[c]]

/-- Parse a JSON Pointer into reference tokens: the empty string denotes the
whole document, otherwise the pointer must start with `/`; anything else is
malformed. -/
def parsePointer (path : String) : Option (List String) :=
  match path.data with
  | [] => some []
  | '/' :: rest => some ((splitSlash rest).map (fun t => String.mk (unescapeChars t)))
  | _ => none

/-- Accumulate a decimal digit sequence into a natural number. -/
def digitsToNat (acc : Nat) : List Char → Nat
  | [] => acc
  | c :: rest => digitsToNat (acc * 10 + (c.toNat - '0'.toNat)) rest

/-- Interpret a reference token as an array index: nonempty all-digit tokens
only. -/
def toIndex (t : String) : Option Nat :=
  match t.data with
  | [] => none
  | cs => if cs.all Char.isDigit then some (digitsToNat 0 cs) else none

/-- Look up a key in a JSON object field list (first match). -/
def lookupField (k : String) : List (String × Json) → Option Json
  | [] => none
  | (k', v) :: rest => if k' = k then some v else lookupField k rest

/-- Overwrite a key in a JSON object field list if present, otherwise append
the new binding at the end. -/
def setField (k : String) (v : Json) : List (String × Json) → List (String × Json)
  | [] => [(k, v)]
  | (k', v') :: rest => if k' = k then (k', v) :: rest else (k', v') :: setField k v rest

/-- Remove a key from a JSON object field list (first match). -/
def removeField (k : String) : List (String × Json) → List (String × Json)
  | [] => []
  | (k', v') :: rest => if k' = k then rest else (k', v') :: removeField k rest

/-- Modelled from the spec: the JSON Patch engine (the external `jsonpatch`
library, which is not part of src/) applying one `add` along resolved tokens.
Per spec section 4.2: add inserts or creates at the path (array insertion
shifts subsequent elements; object key creation or overwrite); every
intermediate token must resolve, otherwise the operation fails. -/
def applyAdd (v : Json) : Json → List String → Except String Json
  | _, [] => .ok v
  | .obj fields, [k] => .ok (.obj (setField k v fields))
  | .arr xs, [k] =>
      if k = "-" then .ok (.arr (xs ++ [v]))
      else
        match toIndex k with
        | some i =>
            if i ≤ xs.length then .ok (.arr (xs.take i ++ v :: xs.drop i))
            else .error "add: index out of range"
        | none => .error "add: invalid array index"
  | .obj fields, k :: rest =>
      match lookupField k fields with
      | some child => (applyAdd v child rest).map (fun c => .obj (setField k c fields))
      | none => .error "add: nonexistent path segment"
  | .arr xs, k :: rest =>
      match toIndex k with
      | some i =>
          match xs.get? i with
          | some child => (applyAdd v child rest).map (fun c => .arr (xs.set i c))
          | none => .error "add: index out of range"
      | none => .error "add: invalid array index"
  | _, _ :: _ => .error "add: cannot descend into scalar"

/-- Modelled from the spec: the JSON Patch engine applying one `replace`.
Per spec section 4.2: replace requires the path to exist and overwrites it. -/
def applyReplace (v : Json) : Json → List String → Except String Json
  | _, [] => .ok v
  | .obj fields, [k] =>
      match lookupField k fields with
      | some _ => .ok (.obj (setField k v fields))
      | none => .error "replace: nonexistent path"
  | .arr xs, [k] =>
      match toIndex k with
      | some i =>
          if i < xs.length then .ok (.arr (xs.set i v))
          else .error "replace: index out of range"
      | none => .error "replace: invalid array index"
  | .obj fields, k :: rest =>
      match lookupField k fields with
      | some child => (applyReplace v child rest).map (fun c => .obj (setField k c fields))
      | none => .error "replace: nonexistent path segment"
  | .arr xs, k :: rest =>
      match toIndex k with
      | some i =>
          match xs.get? i with
          | some child => (applyReplace v child rest).map (fun c => .arr (xs.set i c))
          | none => .error "replace: index out of range"
      | none => .error "replace: invalid array index"
  | _, _ :: _ => .error "replace: cannot descend into scalar"

/-- Modelled from the spec: the JSON Patch engine applying one `remove`.
Per spec section 4.2: remove requires the path to exist and deletes it. -/
def applyRemove : Json → List String → Except String Json
  | _, [] => .error "remove: cannot remove the whole document"
  | .obj fields, [k] =>
      match lookupField k fields with
      | some _ => .ok (.obj (removeField k fields))
      | none => .error "remove: nonexistent path"
  | .arr xs, [k] =>
      match toIndex k with
      | some i =>
          if i < xs.length then .ok (.arr (xs.take i ++ xs.drop (i + 1)))
          else .error "remove: index out of range"
      | none => .error "remove: invalid array index"
  | .obj fields, k :: rest =>
      match lookupField k fields with
      | some child => (applyRemove child rest).map (fun c => .obj (setField k c fields))
      | none => .error "remove: nonexistent path segment"
  | .arr xs, k :: rest =>
      match toIndex k with
      | some i =>
          match xs.get? i with
          | some child => (applyRemove child rest).map (fun c => .arr (xs.set i c))
          | none => .error "remove: index out of range"
      | none => .error "remove: invalid array index"
  | _, _ :: _ => .error "remove: cannot descend into scalar"

/-- Modelled from the spec: one patch operation applied to a document by the
external JSON Patch engine. A malformed path, or a missing value on
add/replace, is a structural error. The engine never mutates its input. -/
def applyOp (doc : Json) (o : Op) : Except String Json :=
  match parsePointer o.path with
  | none => .error "malformed path"
  | some tokens =>
      match o.op with
      | .add =>
          match o.value with
          | some v => applyAdd v doc tokens
          | none => .error "add: missing value member"
      | .replace =>
          match o.value with
          | some v => applyReplace v doc tokens
          | none => .error "replace: missing value member"
      | .remove => applyRemove doc tokens

/-- Modelled from the spec: the engine applies the operations in order,
non-destructively, stopping at the first failure (so a failing patch produces
no document at all, only an error). -/
def applyOps (doc : Json) (ops : List Op) : Except String Json :=
  ops.foldlM applyOp doc

/-- Outcome of a FastAPI handler: a returned value, a raised
`HTTPException(status_code, detail)`, or an exception that escapes the handler
uncaught (FastAPI then produces a bare 500 response with no detail field). -/
inductive Resp (α : Type) where
  | ok (val : α)
  | httpError (status : Nat) (detail : String)
  | serverError

/-- Models the documented contract of `bson.ObjectId(s)` on strings: the
constructor succeeds exactly on 24-character hexadecimal strings and raises
`bson.errors.InvalidId` otherwise. -/
def isValidOId (s : String) : Bool :=
  s.length = 24 && s.toList.all (fun c => c.isDigit || ("abcdefABCDEF".toList.contains c))

/-- First-match lookup in an association list keyed by id strings; this is
`find_one({"_id": k})` on a collection. -/
def findFirst (k : String) : List (String × α) → Option α
  | [] => none
  | (k', v) :: rest => if k' = k then some v else findFirst k rest

/-- First-match modification in an association list keyed by id strings. -/
def modifyFirst (k : String) (f : α → α) : List (String × α) → List (String × α)
  | [] => []
  | (k', v) :: rest => if k' = k then (k', f v) :: rest else (k', v) :: modifyFirst k f rest

/-- Mongo `update_one({"_id": k}, u)`: applies the update to the first
matching document and reports the matched count (0 or 1). -/
def update_one (k : String) (f : α → α) (store : List (String × α)) :
    Nat × List (String × α) :=
  match findFirst k store with
  | none => (0, store)
  | some _ => (1, modifyFirst k f store)

/-- The `templates` collection stores yaml text plus an optional name. -/
abbrev TemplStore := List (String × (String × Option String))

/-- The `objects` collection stores one document per id (the `doc` field). -/
abbrev ObjStore := List (String × Json)

/-- Response model of the template routes (`TemplateOut`). -/
structure TemplateOut where
  id : String
  yaml : String
  name : Option String

/-- Handler `get_template`: parse the id with the `oid` helper (which turns a
parse failure into `HTTPException(400, "invalid_id")`), fetch, 404 with detail
`not_found` when absent. -/
def get_template (template_id : String) (store : TemplStore) :
    Resp TemplateOut × TemplStore :=
  if isValidOId template_id then
    match findFirst template_id store with
    | none => (.httpError 404 "not_found", store)
    | some (y, n) => (.ok ⟨template_id, y, n⟩, store)
  else (.httpError 400 "invalid_id", store)

/-- Handler `get_object`: like `get_template` but over the objects store,
returning the stored document. -/
def get_object (object_id : String) (store : ObjStore) :
    Resp (String × Json) × ObjStore :=
  if isValidOId object_id then
    match findFirst object_id store with
    | none => (.httpError 404 "not_found", store)
    | some d => (.ok (object_id, d), store)
  else (.httpError 400 "invalid_id", store)

/-- Handler `apply_patch` (`POST /objects/{id}/applyPatch`): parse the id via
`oid`, fetch the object (404 `not_found` when absent), apply the patch
non-destructively; an engine failure is caught and re-raised as
`HTTPException(400, "patch_error: <detail>")` without touching the store; on
success the updated document is persisted and returned. -/
def apply_patch (object_id : String) (patch : List Op) (store : ObjStore) :
    Resp (String × Json) × ObjStore :=
  if isValidOId object_id then
    match findFirst object_id store with
    | none => (.httpError 404 "not_found", store)
    | some doc =>
        match applyOps doc patch with
        | .error e => (.httpError 400 ("patch_error: " ++ e), store)
        | .ok updated =>
            (.ok (object_id, updated), (update_one object_id (fun _ => updated) store).2)
  else (.httpError 400 "invalid_id", store)

/-- Handler `health_db`: pings the database; a failure is caught and surfaced
as `HTTPException(500, "mongo_error: <detail>")`. The ping itself is the
external store client, passed in as its outcome. -/
def health_db (ping : Except String Unit) : Resp Bool :=
  match ping with
  | .ok _ => .ok true
  | .error e => .httpError 500 ("mongo_error: " ++ e)

/-- Step application mode (`Literal['diff','explicit']`). -/
inductive Mode where
  | diff : Mode
  | explicit : Mode
deriving DecidableEq

/-- One committed step of the log (`StepModel` as stored by `append_step`):
template path, mode, ops, and the server timestamp `at`. -/
structure Step where
  templatePath : String
  mode : Mode
  ops : List Op
  at_ : Nat

/-- A pending-step reference (`TemplateRefModel`): template path and mode,
no ops. -/
structure TemplateRef where
  templatePath : String
  mode : Mode

/-- A stored conversation document, with the field names of the Mongo
document built by `create_conversation`. -/
structure Conversation where
  title : String
  initial : Json
  steps : List Step
  pending_steps : List TemplateRef
  session_state : List (String × Json)
  created_at : Nat
  updated_at : Nat

/-- The `conversations` collection. -/
abbrev ConvStore := List (String × Conversation)

/-- Request body of `append_step` (`ConversationAppend`). -/
structure ConversationAppend where
  templatePath : String
  mode : Mode
  ops : List Op

/-- Handler `create_conversation`: the stored title is `payload.title or
str(ObjectId())` — Python `or` takes the generated fallback when the supplied
title is `None` or the empty string (both are falsy). The new document starts
with empty steps, pending steps and session state, both timestamps at now,
and is returned together with its new id. -/
def create_conversation (title : Option String) (initial : Json)
    (genTitle newId : String) (now : Nat) (store : ConvStore) :
    Resp (String × Conversation) × ConvStore :=
  let t := match title with
    | some s => if s = "" then genTitle else s
    | none => genTitle
  let conv : Conversation :=
    { title := t, initial := initial, steps := [], pending_steps := [],
      session_state := [], created_at := now, updated_at := now }
  (.ok (newId, conv), store ++ [(newId, conv)])

/-- One row of the `list_conversations` response: id, title, updated_at. -/
structure ConvSummary where
  id : String
  title : String
  updated_at : Nat

/-- Ordering used by `list_conversations`: `sort("updated_at", -1)`, most
recently updated first. -/
def summaryGE (a b : ConvSummary) : Prop :=
  b.updated_at ≤ a.updated_at

instance : DecidableRel summaryGE :=
  fun a b => Nat.decLe b.updated_at a.updated_at

instance : IsTotal ConvSummary summaryGE :=
  ⟨fun a b => Nat.le_total b.updated_at a.updated_at⟩

instance : IsTrans ConvSummary summaryGE :=
  ⟨fun _ _ _ h h' => Nat.le_trans h' h⟩

/-- Handler `list_conversations`: project every stored conversation to
`{id, title, updated_at}` and sort by `updated_at` descending; ties keep the
store-native order (stable sort). -/
def list_conversations (store : ConvStore) : List ConvSummary :=
  List.insertionSort summaryGE
    (store.map (fun p => ⟨p.1, p.2.title, p.2.updated_at⟩))

/-- Response model of `get_conversation` (camel-cased projection `c_out`). -/
structure ConversationOut where
  id : String
  title : String
  initial : Json
  steps : List Step
  pendingSteps : List TemplateRef
  sessionState : List (String × Json)

/-- Handler `get_conversation`: calls `ObjectId(cid)` directly (not the `oid`
helper), so a malformed id raises uncaught `InvalidId`; an absent id yields
`HTTPException(404, "Not found")`; otherwise the camel-cased projection is
returned. -/
def get_conversation (cid : String) (store : ConvStore) :
    Resp ConversationOut × ConvStore :=
  if isValidOId cid then
    match findFirst cid store with
    | none => (.httpError 404 "Not found", store)
    | some c =>
        (.ok ⟨cid, c.title, c.initial, c.steps, c.pending_steps, c.session_state⟩, store)
  else (.serverError, store)

/-- Handler `rename_conversation`: `ObjectId(cid)` raw (uncaught `InvalidId`
on a malformed id), then `update_one` setting title and `updated_at`; a
matched count of zero becomes `HTTPException(404, "Not found")`. -/
def rename_conversation (cid : String) (newTitle : String) (now : Nat)
    (store : ConvStore) : Resp Bool × ConvStore :=
  if isValidOId cid then
    let (matched, store') :=
      update_one cid (fun c => { c with title := newTitle, updated_at := now }) store
    if matched = 0 then (.httpError 404 "Not found", store')
    else (.ok true, store')
  else (.serverError, store)

/-- Handler `append_step`: builds a step stamped now, `$push`es it onto
`steps` and refreshes `updated_at`; absent id is 404 `Not found`, malformed id
is an uncaught `InvalidId`. -/
def append_step (cid : String) (payload : ConversationAppend) (now : Nat)
    (store : ConvStore) : Resp Bool × ConvStore :=
  if isValidOId cid then
    let st : Step := ⟨payload.templatePath, payload.mode, payload.ops, now⟩
    let (matched, store') :=
      update_one cid (fun c => { c with steps := c.steps ++ [st], updated_at := now }) store
    if matched = 0 then (.httpError 404 "Not found", store')
    else (.ok true, store')
  else (.serverError, store)

/-- Handler `undo_last`: `$pop {steps: 1}` removes the last element of
`steps` (a no-op on an empty array) and `updated_at` is refreshed; absent id
is 404 `Not found`, malformed id is an uncaught `InvalidId`. -/
def undo_last (cid : String) (now : Nat) (store : ConvStore) :
    Resp Bool × ConvStore :=
  if isValidOId cid then
    let (matched, store') :=
      update_one cid (fun c => { c with steps := c.steps.dropLast, updated_at := now }) store
    if matched = 0 then (.httpError 404 "Not found", store')
    else (.ok true, store')
  else (.serverError, store)

/-- Handler `reset_steps`: `$set`s `steps` to the empty list and refreshes
`updated_at`; absent id is 404 `Not found`, malformed id is an uncaught
`InvalidId`. -/
def reset_steps (cid : String) (now : Nat) (store : ConvStore) :
    Resp Bool × ConvStore :=
  if isValidOId cid then
    let (matched, store') :=
      update_one cid (fun c => { c with steps := [], updated_at := now }) store
    if matched = 0 then (.httpError 404 "Not found", store')
    else (.ok true, store')
  else (.serverError, store)

/-- Handler `update_state`: `$set`s `pending_steps` and `session_state` to
exactly the supplied values and refreshes `updated_at`; absent id is 404
`Not found`, malformed id is an uncaught `InvalidId`. -/
def update_state (cid : String) (pendingSteps : List TemplateRef)
    (sessionState : List (String × Json)) (now : Nat) (store : ConvStore) :
    Resp Bool × ConvStore :=
  if isValidOId cid then
    let (matched, store') :=
      update_one cid
        (fun c => { c with pending_steps := pendingSteps,
                           session_state := sessionState, updated_at := now }) store
    if matched = 0 then (.httpError 404 "Not found", store')
    else (.ok true, store')
  else (.serverError, store)

/-- Iterated `append_step`: the second component of each pair is the server
timestamp of that call. Only the resulting store is threaded. -/
def appendMany (cid : String) (ps : List (ConversationAppend × Nat))
    (store : ConvStore) : ConvStore :=
  ps.foldl (fun s p => (append_step cid p.1 p.2 s).2) store

/-- Iterated `undo_last`, one call per listed server timestamp. -/
def undoMany (cid : String) (ts : List Nat) (store : ConvStore) : ConvStore :=
  ts.foldl (fun s t => (undo_last cid t s).2) store

/-! ## Helper lemmas about the store operations -/

theorem findFirst_modifyFirst {α : Type} (k : String) (f : α → α) :
    ∀ s : List (String × α), findFirst k (modifyFirst k f s) = (findFirst k s).map f := by
  intro s
  induction s with
  | nil => rfl
  | cons p rest ih =>
      obtain ⟨k', v⟩ := p
      by_cases h : k' = k <;> simp [findFirst, modifyFirst, h, ih]

theorem update_one_found {α : Type} (k : String) (f : α → α)
    (s : List (String × α)) (v : α) (hf : findFirst k s = some v) :
    update_one k f s = (1, modifyFirst k f s) := by
  simp [update_one, hf]

theorem update_one_missing {α : Type} (k : String) (f : α → α)
    (s : List (String × α)) (hf : findFirst k s = none) :
    update_one k f s = (0, s) := by
  simp [update_one, hf]

theorem append_step_found (cid : String) (payload : ConversationAppend)
    (now : Nat) (store : ConvStore) (c : Conversation)
    (hv : isValidOId cid = true) (hf : findFirst cid store = some c) :
    append_step cid payload now store =
      (.ok true,
       modifyFirst cid
         (fun x => { x with
            steps := x.steps ++ [⟨payload.templatePath, payload.mode, payload.ops, now⟩],
            updated_at := now }) store) := by
  simp [append_step, hv, update_one, hf]

theorem undo_last_found (cid : String) (now : Nat) (store : ConvStore)
    (c : Conversation) (hv : isValidOId cid = true)
    (hf : findFirst cid store = some c) :
    undo_last cid now store =
      (.ok true,
       modifyFirst cid
         (fun x => { x with steps := x.steps.dropLast, updated_at := now }) store) := by
  simp [undo_last, hv, update_one, hf]

theorem apply_patch_ok_eq (object_id : String) (ops : List Op)
    (store : ObjStore) (doc res : Json) (hv : isValidOId object_id = true)
    (hf : findFirst object_id store = some doc)
    (he : applyOps doc ops = .ok res) :
    apply_patch object_id ops store =
      (.ok (object_id, res), modifyFirst object_id (fun _ => res) store) := by
  simp [apply_patch, hv, hf, he, update_one]

theorem appendMany_steps (cid : String) (hv : isValidOId cid = true) :
    ∀ (ps : List (ConversationAppend × Nat)) (store : ConvStore) (c : Conversation),
      findFirst cid store = some c →
      ∃ c', findFirst cid (appendMany cid ps store) = some c' ∧
        c'.steps = c.steps ++ ps.map (fun p => Step.mk p.1.templatePath p.1.mode p.1.ops p.2) := by
  intro ps
  induction ps with
  | nil => intro store c hf; exact ⟨c, hf, by simp [appendMany]⟩
  | cons p rest ih =>
      intro store c hf
      have hstep := append_step_found cid p.1 p.2 store c hv hf
      have hf' : findFirst cid (append_step cid p.1 p.2 store).2 =
          some { c with
            steps := c.steps ++ [⟨p.1.templatePath, p.1.mode, p.1.ops, p.2⟩],
            updated_at := p.2 } := by
        rw [hstep]
        simp [findFirst_modifyFirst, hf]
      obtain ⟨c', hc', hsteps⟩ := ih _ _ hf'
      refine ⟨c', ?_, ?_⟩
      · simpa [appendMany] using hc'
      · simpa [List.append_assoc] using hsteps

theorem undoMany_steps (cid : String) (hv : isValidOId cid = true) :
    ∀ (ts : List Nat) (store : ConvStore) (c : Conversation),
      findFirst cid store = some c →
      ∃ c', findFirst cid (undoMany cid ts store) = some c' ∧
        c'.steps = List.dropLast^[ts.length] c.steps := by
  intro ts
  induction ts with
  | nil => intro store c hf; exact ⟨c, hf, by simp [undoMany]⟩
  | cons t rest ih =>
      intro store c hf
      have hstep := undo_last_found cid t store c hv hf
      have hf' : findFirst cid (undo_last cid t store).2 =
          some { c with steps := c.steps.dropLast, updated_at := t } := by
        rw [hstep]
        simp [findFirst_modifyFirst, hf]
      obtain ⟨c', hc', hsteps⟩ := ih _ _ hf'
      refine ⟨c', ?_, ?_⟩
      · simpa [undoMany] using hc'
      · rw [hsteps]
        simp [Function.iterate_succ_apply]

theorem dropLast_iterate_length {α : Type} :
    ∀ (n : Nat) (l : List α), l.length = n → List.dropLast^[n] l = [] := by
  intro n
  induction n with
  | zero =>
      intro l h
      rw [List.length_eq_zero] at h
      simp [h]
  | succ k ih =>
      intro l h
      rw [Function.iterate_succ_apply]
      apply ih
      rw [List.length_dropLast, h]
      rfl

/-! ## Claim theorems -/

/-- C1: for every conversation whose steps log is empty, undo is a no-op on
the log and no error: the handler returns ok, the stored steps stay empty,
and updated_at is still refreshed to the current instant. -/
theorem undo_on_empty_log_is_noop (cid : String) (store : ConvStore)
    (c : Conversation) (now : Nat) (hv : isValidOId cid = true)
    (hf : findFirst cid store = some c) (hs : c.steps = []) :
    (undo_last cid now store).1 = .ok true ∧
    findFirst cid (undo_last cid now store).2 =
      some { c with steps := [], updated_at := now } := by
  have h := undo_last_found cid now store c hv hf
  rw [h]
  refine ⟨rfl, ?_⟩
  simp [findFirst_modifyFirst, hf, hs]

/-- Witness for C1: a stored conversation with an empty log, undone at time
5, stays empty with updated_at 5. -/
theorem undo_on_empty_log_is_noop_witness :
    (undo_last "aaaaaaaaaaaaaaaaaaaaaaaa" 5
        [("aaaaaaaaaaaaaaaaaaaaaaaa", ⟨"t", .null, [], [], [], 1, 1⟩)]).1 = .ok true ∧
    findFirst "aaaaaaaaaaaaaaaaaaaaaaaa"
        (undo_last "aaaaaaaaaaaaaaaaaaaaaaaa" 5
          [("aaaaaaaaaaaaaaaaaaaaaaaa", ⟨"t", .null, [], [], [], 1, 1⟩)]).2 =
      some ⟨"t", .null, [], [], [], 1, 5⟩ :=
  undo_on_empty_log_is_noop "aaaaaaaaaaaaaaaaaaaaaaaa"
    [("aaaaaaaaaaaaaaaaaaaaaaaa", ⟨"t", .null, [], [], [], 1, 1⟩)]
    ⟨"t", .null, [], [], [], 1, 1⟩ 5 rfl rfl rfl

/-- C2, counterexample: the claim says a malformed conversation id fails with
NotFound (404), but `get_conversation` calls `ObjectId(cid)` without the
`oid` helper, so the `InvalidId` exception escapes the handler uncaught (a
bare 500), which is not an `HTTPException(404, ...)`. -/
theorem conv_malformed_id_uncaught :
    (get_conversation "xyz" ([] : ConvStore)).1 = .serverError ∧
    (Resp.serverError : Resp ConversationOut) ≠ .httpError 404 "Not found" :=
  ⟨rfl, fun h => Resp.noConfusion h⟩

/-- C2, amended: for every id, each conversation route (get, rename,
appendStep, undo, reset, updateState) fails with 404 `Not found` when the id
is well-formed but absent from the store, and instead lets an uncaught
invalid-id exception escape (no 404) when the id is malformed. -/
theorem conv_routes_id_errors (cid : String) (store : ConvStore)
    (payload : ConversationAppend) (newTitle : String) (pend : List TemplateRef)
    (sess : List (String × Json)) (now : Nat)
    (hf : findFirst cid store = none) :
    (get_conversation cid store).1 =
      (if isValidOId cid then Resp.httpError 404 "Not found" else .serverError) ∧
    (rename_conversation cid newTitle now store).1 =
      (if isValidOId cid then Resp.httpError 404 "Not found" else .serverError) ∧
    (append_step cid payload now store).1 =
      (if isValidOId cid then Resp.httpError 404 "Not found" else .serverError) ∧
    (undo_last cid now store).1 =
      (if isValidOId cid then Resp.httpError 404 "Not found" else .serverError) ∧
    (reset_steps cid now store).1 =
      (if isValidOId cid then Resp.httpError 404 "Not found" else .serverError) ∧
    (update_state cid pend sess now store).1 =
      (if isValidOId cid then Resp.httpError 404 "Not found" else .serverError) := by
  cases h : isValidOId cid <;>
    simp [get_conversation, rename_conversation, append_step, undo_last,
      reset_steps, update_state, h, update_one, hf]

/-- Witness for C2 amended: a well-formed id absent from an empty store gets
404 `Not found` from all six conversation routes. -/
theorem conv_routes_id_errors_witness :
    (get_conversation "cccccccccccccccccccccccc" ([] : ConvStore)).1 =
      (if isValidOId "cccccccccccccccccccccccc" then Resp.httpError 404 "Not found" else .serverError) ∧
    (rename_conversation "cccccccccccccccccccccccc" "t" 1 ([] : ConvStore)).1 =
      (if isValidOId "cccccccccccccccccccccccc" then Resp.httpError 404 "Not found" else .serverError) ∧
    (append_step "cccccccccccccccccccccccc" ⟨"p", .diff, []⟩ 1 ([] : ConvStore)).1 =
      (if isValidOId "cccccccccccccccccccccccc" then Resp.httpError 404 "Not found" else .serverError) ∧
    (undo_last "cccccccccccccccccccccccc" 1 ([] : ConvStore)).1 =
      (if isValidOId "cccccccccccccccccccccccc" then Resp.httpError 404 "Not found" else .serverError) ∧
    (reset_steps "cccccccccccccccccccccccc" 1 ([] : ConvStore)).1 =
      (if isValidOId "cccccccccccccccccccccccc" then Resp.httpError 404 "Not found" else .serverError) ∧
    (update_state "cccccccccccccccccccccccc" [] [] 1 ([] : ConvStore)).1 =
      (if isValidOId "cccccccccccccccccccccccc" then Resp.httpError 404 "Not found" else .serverError) :=
  conv_routes_id_errors "cccccccccccccccccccccccc" [] ⟨"p", .diff, []⟩ "t" [] [] 1 rfl

/-- C3: if applying the patch fails, `apply_patch` answers 400 with detail
`patch_error: <detail>` and leaves the stored document untouched — no partial
application is visible. -/
theorem apply_patch_failure_atomic (object_id : String) (ops : List Op)
    (store : ObjStore) (doc : Json) (e : String)
    (hv : isValidOId object_id = true)
    (hf : findFirst object_id store = some doc)
    (he : applyOps doc ops = .error e) :
    (apply_patch object_id ops store).1 = .httpError 400 ("patch_error: " ++ e) ∧
    (apply_patch object_id ops store).2 = store := by
  simp [apply_patch, hv, hf, he]

/-- Witness for C3, the spec example: `replace /missing` on a stored
`{"a": 1}` fails with a patch error and the store keeps `{"a": 1}`. -/
theorem apply_patch_failure_atomic_witness :
    (apply_patch "dddddddddddddddddddddddd" [⟨.replace, "/missing", some (.num 2)⟩]
        [("dddddddddddddddddddddddd", .obj [("a", .num 1)])]).1 =
      .httpError 400 "patch_error: replace: nonexistent path" ∧
    (apply_patch "dddddddddddddddddddddddd" [⟨.replace, "/missing", some (.num 2)⟩]
        [("dddddddddddddddddddddddd", .obj [("a", .num 1)])]).2 =
      [("dddddddddddddddddddddddd", .obj [("a", .num 1)])] :=
  apply_patch_failure_atomic "dddddddddddddddddddddddd"
    [⟨.replace, "/missing", some (.num 2)⟩]
    [("dddddddddddddddddddddddd", .obj [("a", .num 1)])]
    (.obj [("a", .num 1)]) "replace: nonexistent path" rfl rfl rfl

/-- C4: starting from an empty steps log, any N appendStep calls followed by
N undo calls bring the steps log back to the original empty log. -/
theorem append_undo_roundtrip (cid : String) (store : ConvStore)
    (c : Conversation) (ps : List (ConversationAppend × Nat)) (ts : List Nat)
    (hv : isValidOId cid = true) (hf : findFirst cid store = some c)
    (hs : c.steps = []) (hlen : ts.length = ps.length) :
    ∃ c', findFirst cid (undoMany cid ts (appendMany cid ps store)) = some c' ∧
      c'.steps = [] := by
  obtain ⟨c1, h1, hsteps1⟩ := appendMany_steps cid hv ps store c hf
  obtain ⟨c2, h2, hsteps2⟩ := undoMany_steps cid hv ts _ c1 h1
  refine ⟨c2, h2, ?_⟩
  rw [hsteps2, hsteps1, hs, List.nil_append]
  exact dropLast_iterate_length _ _ (by simp [hlen])

/-- Witness for C4: two appends then two undos on a fresh conversation leave
the log empty. -/
theorem append_undo_roundtrip_witness :
    ∃ c', findFirst "aaaaaaaaaaaaaaaaaaaaaaaa"
        (undoMany "aaaaaaaaaaaaaaaaaaaaaaaa" [4, 5]
          (appendMany "aaaaaaaaaaaaaaaaaaaaaaaa"
            [(⟨"t1", .explicit, [⟨.add, "/n", some (.num 1)⟩]⟩, 2), (⟨"t2", .diff, []⟩, 3)]
            [("aaaaaaaaaaaaaaaaaaaaaaaa", ⟨"t", .null, [], [], [], 1, 1⟩)])) = some c' ∧
      c'.steps = [] :=
  append_undo_roundtrip "aaaaaaaaaaaaaaaaaaaaaaaa"
    [("aaaaaaaaaaaaaaaaaaaaaaaa", ⟨"t", .null, [], [], [], 1, 1⟩)]
    ⟨"t", .null, [], [], [], 1, 1⟩
    [(⟨"t1", .explicit, [⟨.add, "/n", some (.num 1)⟩]⟩, 2), (⟨"t2", .diff, []⟩, 3)]
    [4, 5] rfl rfl rfl rfl

/-- C5: updateState wholesale-replaces pending_steps and session_state with
exactly the supplied values (prior values are overwritten, never merged) and
refreshes updated_at; the handler returns ok. -/
theorem update_state_wholesale_replaces (cid : String) (pend : List TemplateRef)
    (sess : List (String × Json)) (now : Nat) (store : ConvStore)
    (c : Conversation) (hv : isValidOId cid = true)
    (hf : findFirst cid store = some c) :
    (update_state cid pend sess now store).1 = .ok true ∧
    findFirst cid (update_state cid pend sess now store).2 =
      some { c with pending_steps := pend, session_state := sess,
                    updated_at := now } := by
  simp [update_state, hv, update_one, hf, findFirst_modifyFirst]

/-- Witness for C5: nonempty prior pending steps and session state are
overwritten by the new values, not merged. -/
theorem update_state_wholesale_replaces_witness :
    (update_state "aaaaaaaaaaaaaaaaaaaaaaaa" [⟨"new", .explicit⟩] [("x", .num 7)] 9
        [("aaaaaaaaaaaaaaaaaaaaaaaa",
          ⟨"t", .null, [], [⟨"old", .diff⟩], [("k", .num 0)], 1, 1⟩)]).1 = .ok true ∧
    findFirst "aaaaaaaaaaaaaaaaaaaaaaaa"
        (update_state "aaaaaaaaaaaaaaaaaaaaaaaa" [⟨"new", .explicit⟩] [("x", .num 7)] 9
          [("aaaaaaaaaaaaaaaaaaaaaaaa",
            ⟨"t", .null, [], [⟨"old", .diff⟩], [("k", .num 0)], 1, 1⟩)]).2 =
      some ⟨"t", .null, [], [⟨"new", .explicit⟩], [("x", .num 7)], 1, 9⟩ :=
  update_state_wholesale_replaces "aaaaaaaaaaaaaaaaaaaaaaaa"
    [⟨"new", .explicit⟩] [("x", .num 7)] 9
    [("aaaaaaaaaaaaaaaaaaaaaaaa",
      ⟨"t", .null, [], [⟨"old", .diff⟩], [("k", .num 0)], 1, 1⟩)]
    ⟨"t", .null, [], [⟨"old", .diff⟩], [("k", .num 0)], 1, 1⟩ rfl rfl

/-- C6: for every store contents, `list_conversations` returns exactly the
{id, title, updated_at} summaries of the stored conversations (a permutation
of the projection), sorted by updated_at descending; and in the concrete
scenario create A (t=1), create B (t=2), update A (t=3), the order is
[A, B]. -/
theorem list_sorted_by_updated_desc :
    (∀ store : ConvStore,
        (list_conversations store).Sorted summaryGE ∧
        List.Perm (list_conversations store)
          (store.map (fun p => ⟨p.1, p.2.title, p.2.updated_at⟩))) ∧
    (list_conversations
        (update_state "aaaaaaaaaaaaaaaaaaaaaaaa" [] [] 3
          (create_conversation (some "B") .null "g2" "bbbbbbbbbbbbbbbbbbbbbbbb" 2
            (create_conversation (some "A") .null "g1" "aaaaaaaaaaaaaaaaaaaaaaaa" 1
              ([] : ConvStore)).2).2).2).map ConvSummary.id =
      ["aaaaaaaaaaaaaaaaaaaaaaaa", "bbbbbbbbbbbbbbbbbbbbbbbb"] := by
  refine ⟨fun store => ⟨List.sorted_insertionSort summaryGE _,
    List.perm_insertionSort summaryGE _⟩, ?_⟩
  rfl

/-- C7: frame conditions of the mutating conversation routes, read off their
exact post-states: appendStep, undo and reset change only `steps` and
`updated_at` (so `pending_steps`, `session_state`, `initial` and `title` are
untouched); updateState changes only `pending_steps`, `session_state` and
`updated_at` (so `steps`, `initial` and `title` are untouched); rename
changes only `title` and `updated_at`; and no route ever mutates `initial`
(get leaves the whole store as is). -/
theorem conversation_ops_frame (cid : String) (store : ConvStore)
    (c : Conversation) (payload : ConversationAppend) (newTitle : String)
    (pend : List TemplateRef) (sess : List (String × Json)) (now : Nat)
    (hv : isValidOId cid = true) (hf : findFirst cid store = some c) :
    findFirst cid (append_step cid payload now store).2 =
      some { c with
        steps := c.steps ++ [⟨payload.templatePath, payload.mode, payload.ops, now⟩],
        updated_at := now } ∧
    findFirst cid (undo_last cid now store).2 =
      some { c with steps := c.steps.dropLast, updated_at := now } ∧
    findFirst cid (reset_steps cid now store).2 =
      some { c with steps := [], updated_at := now } ∧
    findFirst cid (update_state cid pend sess now store).2 =
      some { c with pending_steps := pend, session_state := sess,
                    updated_at := now } ∧
    findFirst cid (rename_conversation cid newTitle now store).2 =
      some { c with title := newTitle, updated_at := now } ∧
    (get_conversation cid store).2 = store := by
  refine ⟨?_, ?_, ?_, ?_, ?_, ?_⟩ <;>
    simp [append_step, undo_last, reset_steps, update_state,
      rename_conversation, get_conversation, hv, update_one, hf,
      findFirst_modifyFirst]

/-- Witness for C7: the frame conditions evaluated on a conversation with
nonempty fields of every kind. -/
theorem conversation_ops_frame_witness :
    findFirst "aaaaaaaaaaaaaaaaaaaaaaaa"
        (append_step "aaaaaaaaaaaaaaaaaaaaaaaa" ⟨"tp", .diff, []⟩ 9
          [("aaaaaaaaaaaaaaaaaaaaaaaa",
            ⟨"T", .num 3, [⟨"s0", .explicit, [], 1⟩], [⟨"p0", .diff⟩], [("k", .bool true)], 1, 2⟩)]).2 =
      some ⟨"T", .num 3, [⟨"s0", .explicit, [], 1⟩, ⟨"tp", .diff, [], 9⟩],
        [⟨"p0", .diff⟩], [("k", .bool true)], 1, 9⟩ ∧
    findFirst "aaaaaaaaaaaaaaaaaaaaaaaa"
        (undo_last "aaaaaaaaaaaaaaaaaaaaaaaa" 9
          [("aaaaaaaaaaaaaaaaaaaaaaaa",
            ⟨"T", .num 3, [⟨"s0", .explicit, [], 1⟩], [⟨"p0", .diff⟩], [("k", .bool true)], 1, 2⟩)]).2 =
      some ⟨"T", .num 3, [], [⟨"p0", .diff⟩], [("k", .bool true)], 1, 9⟩ ∧
    findFirst "aaaaaaaaaaaaaaaaaaaaaaaa"
        (reset_steps "aaaaaaaaaaaaaaaaaaaaaaaa" 9
          [("aaaaaaaaaaaaaaaaaaaaaaaa",
            ⟨"T", .num 3, [⟨"s0", .explicit, [], 1⟩], [⟨"p0", .diff⟩], [("k", .bool true)], 1, 2⟩)]).2 =
      some ⟨"T", .num 3, [], [⟨"p0", .diff⟩], [("k", .bool true)], 1, 9⟩ ∧
    findFirst "aaaaaaaaaaaaaaaaaaaaaaaa"
        (update_state "aaaaaaaaaaaaaaaaaaaaaaaa" [⟨"p1", .explicit⟩] [("m", .null)] 9
          [("aaaaaaaaaaaaaaaaaaaaaaaa",
            ⟨"T", .num 3, [⟨"s0", .explicit, [], 1⟩], [⟨"p0", .diff⟩], [("k", .bool true)], 1, 2⟩)]).2 =
      some ⟨"T", .num 3, [⟨"s0", .explicit, [], 1⟩], [⟨"p1", .explicit⟩], [("m", .null)], 1, 9⟩ ∧
    findFirst "aaaaaaaaaaaaaaaaaaaaaaaa"
        (rename_conversation "aaaaaaaaaaaaaaaaaaaaaaaa" "T2" 9
          [("aaaaaaaaaaaaaaaaaaaaaaaa",
            ⟨"T", .num 3, [⟨"s0", .explicit, [], 1⟩], [⟨"p0", .diff⟩], [("k", .bool true)], 1, 2⟩)]).2 =
      some ⟨"T2", .num 3, [⟨"s0", .explicit, [], 1⟩], [⟨"p0", .diff⟩], [("k", .bool true)], 1, 9⟩ ∧
    (get_conversation "aaaaaaaaaaaaaaaaaaaaaaaa"
        [("aaaaaaaaaaaaaaaaaaaaaaaa",
          ⟨"T", .num 3, [⟨"s0", .explicit, [], 1⟩], [⟨"p0", .diff⟩], [("k", .bool true)], 1, 2⟩)]).2 =
      [("aaaaaaaaaaaaaaaaaaaaaaaa",
        ⟨"T", .num 3, [⟨"s0", .explicit, [], 1⟩], [⟨"p0", .diff⟩], [("k", .bool true)], 1, 2⟩)] :=
  conversation_ops_frame "aaaaaaaaaaaaaaaaaaaaaaaa"
    [("aaaaaaaaaaaaaaaaaaaaaaaa",
      ⟨"T", .num 3, [⟨"s0", .explicit, [], 1⟩], [⟨"p0", .diff⟩], [("k", .bool true)], 1, 2⟩)]
    ⟨"T", .num 3, [⟨"s0", .explicit, [], 1⟩], [⟨"p0", .diff⟩], [("k", .bool true)], 1, 2⟩
    ⟨"tp", .diff, []⟩ "T2" [⟨"p1", .explicit⟩] [("m", .null)] 9 rfl rfl

/-- C8, counterexample: the claim says every not-found failure carries the
exact code string `not_found`, but a conversation lookup on a well-formed
absent id answers 404 with detail `Not found`, which is a different
string. -/
theorem conv_notfound_detail_mismatch :
    (get_conversation "aaaaaaaaaaaaaaaaaaaaaaaa" ([] : ConvStore)).1 =
      .httpError 404 "Not found" ∧
    "Not found" ≠ "not_found" :=
  ⟨rfl, by decide⟩

/-- C8, amended: failures surface as HTTP status plus short code string —
`not_found` (404) for template and object lookups, `invalid_id` (400) from
the `oid` helper, `patch_error: <detail>` (400), `mongo_error: <detail>`
(500) — but the conversation routes answer their not-found case with the
string `Not found`, not `not_found`. -/
theorem error_codes_surface (tid bad cid : String) (tstore : TemplStore)
    (ostore : ObjStore) (cstore : ConvStore) (doc : Json) (ops : List Op)
    (emsg pingErr : String)
    (hv : isValidOId tid = true) (ht : findFirst tid tstore = none)
    (hb : isValidOId bad = false)
    (ho : findFirst tid ostore = some doc)
    (hp : applyOps doc ops = .error emsg)
    (hcv : isValidOId cid = true) (hc : findFirst cid cstore = none) :
    (get_template tid tstore).1 = .httpError 404 "not_found" ∧
    (get_object tid ([] : ObjStore)).1 = .httpError 404 "not_found" ∧
    (get_object bad ostore).1 = .httpError 400 "invalid_id" ∧
    (apply_patch tid ops ostore).1 = .httpError 400 ("patch_error: " ++ emsg) ∧
    health_db (.error pingErr) = .httpError 500 ("mongo_error: " ++ pingErr) ∧
    (get_conversation cid cstore).1 = .httpError 404 "Not found" := by
  refine ⟨?_, ?_, ?_, ?_, rfl, ?_⟩
  · simp [get_template, hv, ht]
  · simp [get_object, hv, findFirst]
  · simp [get_object, hb]
  · simp [apply_patch, hv, ho, hp]
  · simp [get_conversation, hcv, hc]

/-- Witness for C8 amended: each error family evaluated at a concrete
input. -/
theorem error_codes_surface_witness :
    (get_template "dddddddddddddddddddddddd" ([] : TemplStore)).1 =
      .httpError 404 "not_found" ∧
    (get_object "dddddddddddddddddddddddd" ([] : ObjStore)).1 =
      .httpError 404 "not_found" ∧
    (get_object "xyz" [("dddddddddddddddddddddddd", .obj [("a", .num 1)])]).1 =
      .httpError 400 "invalid_id" ∧
    (apply_patch "dddddddddddddddddddddddd" [⟨.remove, "/zz", none⟩]
        [("dddddddddddddddddddddddd", .obj [("a", .num 1)])]).1 =
      .httpError 400 "patch_error: remove: nonexistent path" ∧
    health_db (.error "down") = .httpError 500 "mongo_error: down" ∧
    (get_conversation "cccccccccccccccccccccccc" ([] : ConvStore)).1 =
      .httpError 404 "Not found" :=
  error_codes_surface "dddddddddddddddddddddddd" "xyz" "cccccccccccccccccccccccc"
    [] [("dddddddddddddddddddddddd", .obj [("a", .num 1)])] []
    (.obj [("a", .num 1)]) [⟨.remove, "/zz", none⟩]
    "remove: nonexistent path" "down" rfl rfl rfl rfl rfl rfl rfl

/-- C9: on a stored object whose document is the empty mapping, applying
`[{op: add, path: /x, value: 1}]` and then `[{op: remove, path: /x}]`
returns the document to the empty mapping, both in the response and in the
store. -/
theorem apply_patch_add_remove_roundtrip (object_id : String)
    (store : ObjStore) (hv : isValidOId object_id = true)
    (hf : findFirst object_id store = some (.obj [])) :
    (apply_patch object_id [⟨.remove, "/x", none⟩]
        (apply_patch object_id [⟨.add, "/x", some (.num 1)⟩] store).2).1 =
      .ok (object_id, .obj []) ∧
    findFirst object_id
        (apply_patch object_id [⟨.remove, "/x", none⟩]
          (apply_patch object_id [⟨.add, "/x", some (.num 1)⟩] store).2).2 =
      some (.obj []) := by
  have h1 := apply_patch_ok_eq object_id [⟨.add, "/x", some (.num 1)⟩] store
    (.obj []) (.obj [("x", .num 1)]) hv hf rfl
  have hf1 : findFirst object_id
      (apply_patch object_id [⟨.add, "/x", some (.num 1)⟩] store).2 =
      some (.obj [("x", .num 1)]) := by
    rw [h1]
    simp [findFirst_modifyFirst, hf]
  have h2 := apply_patch_ok_eq object_id [⟨.remove, "/x", none⟩] _
    (.obj [("x", .num 1)]) (.obj []) hv hf1 rfl
  rw [h2]
  exact ⟨rfl, by simp [findFirst_modifyFirst, hf1]⟩

/-- Witness for C9: the round trip on a concrete stored empty document. -/
theorem apply_patch_add_remove_roundtrip_witness :
    (apply_patch "dddddddddddddddddddddddd" [⟨.remove, "/x", none⟩]
        (apply_patch "dddddddddddddddddddddddd" [⟨.add, "/x", some (.num 1)⟩]
          [("dddddddddddddddddddddddd", .obj [])]).2).1 =
      .ok ("dddddddddddddddddddddddd", .obj []) ∧
    findFirst "dddddddddddddddddddddddd"
        (apply_patch "dddddddddddddddddddddddd" [⟨.remove, "/x", none⟩]
          (apply_patch "dddddddddddddddddddddddd" [⟨.add, "/x", some (.num 1)⟩]
            [("dddddddddddddddddddddddd", .obj [])]).2).2 =
      some (.obj []) :=
  apply_patch_add_remove_roundtrip "dddddddddddddddddddddddd"
    [("dddddddddddddddddddddddd", .obj [])] rfl rfl

/-- C10: creating a conversation with the supplied title `""` behaves exactly
as if no title had been supplied — Python `payload.title or str(ObjectId())`
treats the empty string as falsy — so the stored and returned title is the
generated fallback, which is nonempty; a caller cannot create a conversation
titled `""`. -/
theorem create_empty_title_uses_fallback (initial : Json)
    (genTitle newId : String) (now : Nat) (store : ConvStore)
    (hg : genTitle ≠ "") :
    create_conversation (some "") initial genTitle newId now store =
      create_conversation none initial genTitle newId now store ∧
    (create_conversation (some "") initial genTitle newId now store).1 =
      .ok (newId, ⟨genTitle, initial, [], [], [], now, now⟩) ∧
    (⟨genTitle, initial, [], [], [], now, now⟩ : Conversation).title ≠ "" :=
  ⟨rfl, rfl, hg⟩

/-- Witness for C10: creating with title `""` and a generated 24-hex fallback
stores the nonempty fallback. -/
theorem create_empty_title_uses_fallback_witness :
    create_conversation (some "") (.obj []) "cafecafecafecafecafecafe"
        "eeeeeeeeeeeeeeeeeeeeeeee" 7 ([] : ConvStore) =
      create_conversation none (.obj []) "cafecafecafecafecafecafe"
        "eeeeeeeeeeeeeeeeeeeeeeee" 7 ([] : ConvStore) ∧
    (create_conversation (some "") (.obj []) "cafecafecafecafecafecafe"
        "eeeeeeeeeeeeeeeeeeeeeeee" 7 ([] : ConvStore)).1 =
      .ok ("eeeeeeeeeeeeeeeeeeeeeeee",
        ⟨"cafecafecafecafecafecafe", .obj [], [], [], [], 7, 7⟩) ∧
    (⟨"cafecafecafecafecafecafe", .obj [], [], [], [], 7, 7⟩ : Conversation).title ≠ "" :=
  create_empty_title_uses_fallback (.obj []) "cafecafecafecafecafecafe"
    "eeeeeeeeeeeeeeeeeeeeeeee" 7 [] (by decide)

end V4
